import Mathlib

/-!
Verification development for the Services mobile client.

The definitions below are a shallow embedding of the client-side code:
the media validation/upload pipeline (src/utils/cloudinaryClient.ts and
the post-creation upload loop of src/screens/ProfileScreen.tsx), the
client-side join layer and the optimistic like/unlike handlers of
src/screens/DiscussionsScreen.tsx (identical in the unnamed variant) and
src/screens/PostsScreen.tsx.  JavaScript numbers holding counters are
modelled as `Int` (sizes as `Nat`), remote calls as explicit outcome
parameters, and the interleaving of state updates and network calls as
an explicit event trace.
-/

namespace Services

/-! ### Media pipeline: `src/utils/cloudinaryClient.ts` -/

/-- Per-context media constraints (`MEDIA_CONSTRAINTS` entries). -/
structure MediaConstraints where
  MAX_IMAGES : Nat
  MAX_IMAGE_SIZE : Nat
  MAX_VIDEOS : Nat
  MAX_VIDEO_SIZE : Nat
  MAX_VIDEO_DURATION : Nat
deriving DecidableEq

/-- The three media contexts keyed in `MEDIA_CONSTRAINTS`. -/
inductive MediaContext where
  | SERVICE
  | POST
  | COMMENT
deriving DecidableEq

/-- `MEDIA_CONSTRAINTS` from cloudinaryClient.ts (sizes in bytes). -/
def MEDIA_CONSTRAINTS : MediaContext → MediaConstraints
  | .SERVICE => ⟨5, 1024 * 1024, 1, 5 * 1024 * 1024, 15⟩
  | .POST => ⟨3, 1024 * 1024, 1, 5 * 1024 * 1024, 15⟩
  | .COMMENT => ⟨1, 1024 * 1024, 1, 5 * 1024 * 1024, 15⟩

/-- `ALLOWED_IMAGE_TYPES`. -/
def ALLOWED_IMAGE_TYPES : List String :=
  ["image/jpeg", "image/png", "image/gif", "image/webp"]

/-- `ALLOWED_VIDEO_TYPES`. -/
def ALLOWED_VIDEO_TYPES : List String :=
  ["video/mp4", "video/quicktime", "video/x-msvideo"]

/-- The `type` argument of `validateMediaFile` (image or video). -/
inductive MediaKind where
  | image
  | video
deriving DecidableEq

/-- The fields of the `file` argument read by `validateMediaFile`. -/
structure MediaFile where
  fileSize : Nat
  type : String
deriving DecidableEq

/-- Result shape of `validateMediaFile`. -/
structure ValidationResult where
  valid : Bool
  error : Option String
deriving DecidableEq

/-- `validateMediaFile(file, type, mediaType)`: size check against the
per-context ceiling first, then MIME allow-list check. -/
def validateMediaFile (file : MediaFile) (type : MediaKind)
    (mediaType : MediaContext) : ValidationResult :=
  let maxSize := if type = .image then (MEDIA_CONSTRAINTS mediaType).MAX_IMAGE_SIZE
    else (MEDIA_CONSTRAINTS mediaType).MAX_VIDEO_SIZE
  if maxSize < file.fileSize then
    { valid := false,
      error := some ((if type = .image then "Image" else "Video") ++
        " exceeds maximum size of " ++ toString (maxSize / (1024 * 1024)) ++ "MB") }
  else
    let allowedTypes := if type = .image then ALLOWED_IMAGE_TYPES else ALLOWED_VIDEO_TYPES
    if file.type ∈ allowedTypes then
      { valid := true, error := none }
    else
      { valid := false,
        error := some ("Invalid " ++ (if type = .image then "image" else "video") ++
          " format. Allowed: " ++ String.intercalate ", " allowedTypes) }

/-- `Math.round(num / den)` for non-negative operands (round half up). -/
def jsRound (num den : Nat) : Nat := (2 * num + den) / (2 * den)

/-- Loop body of `uploadMultipleFiles`: each file is modelled by the
outcome of its `uploadToCloudinary` call (`some url` on success, `none`
when the upload throws).  Returns the accumulated `urls` array and the
sequence of values passed to `onProgress`; `completedUploads` is only
incremented, and progress only reported, on success, exactly as in the
source. -/
def uploadLoop (total : Nat) : List (Option String) → Nat → List String × List Nat
  | [], _ => ([], [])
  | some url :: rest, completedUploads =>
      let done := completedUploads + 1
      let r := uploadLoop total rest done
      (url :: r.1, jsRound (done * 100) total :: r.2)
  | none :: rest, completedUploads => uploadLoop total rest completedUploads

/-- `uploadMultipleFiles(files, folder, onProgress)`: sequential loop over
the files starting with `completedUploads = 0`. -/
def uploadMultipleFiles (files : List (Option String)) : List String × List Nat :=
  uploadLoop files.length files 0

/-- Observable step of the per-file retry loop in `handleCreatePost`
(ProfileScreen): an upload attempt, or the fixed `setTimeout` pause run
after a failed attempt. -/
inductive FileEvent where
  | attempt
  | delay (ms : Nat)
deriving DecidableEq

/-- The `while (!uploadSuccess && retryCount < 3)` loop of
`handleCreatePost` (ProfileScreen, post-media path).  A file is modelled
by the outcomes of its successive upload attempts (`some url` success,
`none` throw; a missing entry is a throw).  The fuel argument is
`3 - retryCount`.  Each failed attempt increments `retryCount` and is
followed by a 1000 ms delay. -/
def retryLoop : Nat → List (Option String) → Option String × List FileEvent
  | 0, _ => (none, [])
  | fuel + 1, [] =>
      let r := retryLoop fuel []
      (r.1, FileEvent.attempt :: FileEvent.delay 1000 :: r.2)
  | _ + 1, some url :: _ => (some url, [FileEvent.attempt])
  | fuel + 1, none :: rest =>
      let r := retryLoop fuel rest
      (r.1, FileEvent.attempt :: FileEvent.delay 1000 :: r.2)

/-- One file's upload in the resilient post path: at most three attempts. -/
def uploadFileWithRetry (outcomes : List (Option String)) : Option String × List FileEvent :=
  retryLoop 3 outcomes

/-- The `for (const media of selectedMedia)` loop of `handleCreatePost`:
pushes the URL of each file whose retry loop succeeded and continues past
files whose three attempts all failed. -/
def createPostUploadLoop : List (List (Option String)) → List String
  | [] => []
  | f :: rest =>
      match (uploadFileWithRetry f).1 with
      | some url => url :: createPostUploadLoop rest
      | none => createPostUploadLoop rest

/-! ### Join layer and like handlers -/

/-- Profile rows selected by the screens (`id, username, avatar_url`). -/
structure Profile where
  id : String
  username : String
  avatar_url : Option String
deriving DecidableEq

/-- Primary post row selected by the Discussions screen
(`id, created_at, user_id, content, media, likes, comments`). -/
structure PostRow where
  id : String
  created_at : String
  user_id : String
  content : String
  likes : Int
  comments : Int
deriving DecidableEq

/-- Joined Discussions post: primary row plus the optional joined
profile and the ephemeral `isLiked` flag. -/
structure DPost where
  id : String
  created_at : String
  user_id : String
  content : String
  likes : Int
  comments : Int
  isLiked : Bool
  profile : Option Profile
deriving DecidableEq

/-- The `postsWithProfiles` map inside `fetchPosts`: a client-side left
join, `profilesData.find(p => p.id === post.user_id)` with `undefined`
coerced to null, and `isLiked` defaulted to false. -/
def postsWithProfiles (data : List PostRow) (profilesData : List Profile) : List DPost :=
  data.map fun post =>
    { id := post.id, created_at := post.created_at, user_id := post.user_id,
      content := post.content, likes := post.likes, comments := post.comments,
      isLiked := false,
      profile := profilesData.find? (fun p => p.id == post.user_id) }

/-- Outcome of one remote query: a payload or an error. -/
inductive FetchResult (α : Type) where
  | ok (data : α)
  | err
deriving DecidableEq

/-- `fetchPosts` of the Discussions screen (control flow identical in
PostsScreen): a thrown posts error reaches the catch block and leaves the
posts state untouched (`none`); an empty primary result skips the profile
fetch and sets `[]`; a profile error is re-thrown (`throw profilesError`)
and also leaves the state untouched; otherwise the joined rows are set. -/
def fetchPostsD : FetchResult (List PostRow) → FetchResult (List Profile) →
    Option (List DPost)
  | .err, _ => none
  | .ok data, profilesRes =>
      if data.isEmpty then some []
      else
        match profilesRes with
        | .err => none
        | .ok profilesData => some (postsWithProfiles data profilesData)

/-- Remote mutations issued by the like handlers. -/
inductive RemoteOp where
  | insertLike (table userId postId : String)
  | deleteLike (table userId postId : String)
  | updateLikes (table postId : String) (likes : Int)
deriving DecidableEq

/-- Observable events of a like handler run: a synchronous local state
update (`setPosts`) or an issued remote call. -/
inductive Event where
  | localUpdate
  | remoteCall (op : RemoteOp)
deriving DecidableEq

/-- Element-wise optimistic flip of the Discussions handler
(`likes: post.isLiked ? post.likes - 1 : post.likes + 1`,
`isLiked: !post.isLiked`). -/
def flipFn (post : DPost) : DPost :=
  { post with
    likes := if post.isLiked then post.likes - 1 else post.likes + 1,
    isLiked := !post.isLiked }

/-- The optimistic `setPosts` map of the Discussions handler. -/
def flipPost (postId : String) (posts : List DPost) : List DPost :=
  posts.map fun post => if post.id == postId then flipFn post else post

/-- Element-wise catch-block update of the Discussions handler
(`likes: p.isLiked ? p.likes + 1 : p.likes - 1`, `isLiked: !p.isLiked`),
exactly as written in the source. -/
def revertFn (p : DPost) : DPost :=
  { p with
    likes := if p.isLiked then p.likes + 1 else p.likes - 1,
    isLiked := !p.isLiked }

/-- The catch-block `setPosts` map of the Discussions handler. -/
def revertPost (postId : String) (posts : List DPost) : List DPost :=
  posts.map fun p => if p.id == postId then revertFn p else p

/-- Find a post by id, as `posts.find(p => p.id === postId)`. -/
def getPost (postId : String) (posts : List DPost) : Option DPost :=
  posts.find? fun p => p.id == postId

/-- `handleLikePost` of the Discussions screen.  `session` carries the
user id; `failAt` is `none` when both awaited remote calls succeed and
`some i` when the `i`-th of the two throws (earlier ones having been
issued).  Guards: no session, or post not found, do nothing.  Otherwise
the optimistic flip is applied first, the remote calls are issued using
the pre-flip snapshot `post`, and on a throw the catch block applies the
source's revert map. -/
def handleLikePostD (session : Option String) (postId : String)
    (posts : List DPost) (failAt : Option (Fin 2)) : List DPost × List Event :=
  match session with
  | none => (posts, [])
  | some userId =>
    match posts.find? (fun p => p.id == postId) with
    | none => (posts, [])
    | some post =>
      let flipped := flipPost postId posts
      let ops : List RemoteOp :=
        if post.isLiked then
          [.deleteLike "likes" userId postId, .updateLikes "posts" postId (post.likes - 1)]
        else
          [.insertLike "likes" userId postId, .updateLikes "posts" postId (post.likes + 1)]
      match failAt with
      | none => (flipped, .localUpdate :: ops.map .remoteCall)
      | some i =>
          (revertPost postId flipped,
           .localUpdate :: (ops.take (i.1 + 1)).map .remoteCall ++ [.localUpdate])

/-- Posts-screen post rows (`likes_count`, `liked_by_current_user`,
joined `profile`). -/
structure PPost where
  id : String
  title : String
  content : String
  user_id : String
  likes_count : Int
  comments_count : Int
  liked_by_current_user : Bool
  profile : Option Profile
deriving DecidableEq

/-- Element-wise unlike update of the PostsScreen handler
(`likes_count: Math.max(0, post.likes_count - 1)`). -/
def unlikeFnP (post : PPost) : PPost :=
  { post with
    likes_count := max 0 (post.likes_count - 1),
    liked_by_current_user := false }

/-- Element-wise like update of the PostsScreen handler. -/
def likeFnP (post : PPost) : PPost :=
  { post with
    likes_count := post.likes_count + 1,
    liked_by_current_user := true }

/-- Find a PostsScreen post by id. -/
def getPostP (postId : String) (posts : List PPost) : Option PPost :=
  posts.find? fun p => p.id == postId

/-- `handleLikePost` of the PostsScreen.  `currentlyLiked` is the second
call-site argument (`!!item.liked_by_current_user`); `remoteFails` tells
whether the single awaited mutation throws.  The remote delete/insert is
awaited BEFORE `setPosts` runs; when the await throws, the catch block
runs and no local update happens.  (The trailing `setFilteredPosts`
resynchronisation, which only mirrors `posts`, is not modelled.) -/
def handleLikePostP (session : Option String) (postId : String)
    (currentlyLiked : Bool) (posts : List PPost) (remoteFails : Bool) :
    List PPost × List Event :=
  match session with
  | none => (posts, [])
  | some userId =>
    if currentlyLiked then
      if remoteFails then
        (posts, [.remoteCall (.deleteLike "post_likes" userId postId)])
      else
        (posts.map fun post => if post.id == postId then unlikeFnP post else post,
         [.remoteCall (.deleteLike "post_likes" userId postId), .localUpdate])
    else
      if remoteFails then
        (posts, [.remoteCall (.insertLike "post_likes" userId postId)])
      else
        (posts.map fun post => if post.id == postId then likeFnP post else post,
         [.remoteCall (.insertLike "post_likes" userId postId), .localUpdate])

/-- The trace property asserted by the optimistic-mutation spec: every
remote call is preceded by a local state update. -/
def flipPrecedesRemotes (tr : List Event) : Prop :=
  ∀ j op, tr.get? j = some (Event.remoteCall op) →
    ∃ i, i < j ∧ tr.get? i = some Event.localUpdate

/-- Number of upload attempts recorded in a file-event trace. -/
def countAttempts (evs : List FileEvent) : Nat :=
  evs.countP fun e => e == FileEvent.attempt

/-! ### Helper lemmas -/

theorem uploadLoop_urls (total : Nat) (files : List (Option String)) (c : Nat) :
    (uploadLoop total files c).1 = files.filterMap id := by
  induction files generalizing c with
  | nil => rfl
  | cons a rest ih =>
    cases a with
    | some url => simp [uploadLoop, ih]
    | none => simp [uploadLoop, ih]

theorem retryLoop_fst (fuel : Nat) (outs : List (Option String)) :
    (retryLoop fuel outs).1 = (outs.take fuel).findSome? id := by
  induction fuel generalizing outs with
  | zero => simp [retryLoop]
  | succ fuel ih =>
    cases outs with
    | nil => simp [retryLoop, ih]
    | cons a rest =>
      cases a with
      | some url => simp [retryLoop, List.findSome?]
      | none => simp [retryLoop, ih, List.findSome?]

theorem retryLoop_attempts (fuel : Nat) (outs : List (Option String)) :
    countAttempts (retryLoop fuel outs).2 ≤ fuel := by
  induction fuel generalizing outs with
  | zero => simp [retryLoop, countAttempts]
  | succ fuel ih =>
    cases outs with
    | nil =>
      have h := ih []
      simp [retryLoop, countAttempts, List.countP_cons] at *
      omega
    | cons a rest =>
      cases a with
      | some url => simp [retryLoop, countAttempts]
      | none =>
        have h := ih rest
        simp [retryLoop, countAttempts, List.countP_cons] at *
        omega

theorem retryLoop_delay_between (fuel : Nat) (outs : List (Option String)) :
    List.Chain' (fun a b => a = FileEvent.attempt → b = FileEvent.delay 1000)
      (retryLoop fuel outs).2 := by
  induction fuel generalizing outs with
  | zero => simp [retryLoop]
  | succ fuel ih =>
    have hstep : ∀ tail, List.Chain'
        (fun a b => a = FileEvent.attempt → b = FileEvent.delay 1000) tail →
        List.Chain' (fun a b => a = FileEvent.attempt → b = FileEvent.delay 1000)
          (FileEvent.attempt :: FileEvent.delay 1000 :: tail) := by
      intro tail htail
      rw [List.chain'_cons]
      refine ⟨fun _ => rfl, ?_⟩
      rw [List.chain'_cons']
      refine ⟨fun h _ heq => ?_, htail⟩
      cases heq
    cases outs with
    | nil => exact hstep _ (ih [])
    | cons a rest =>
      cases a with
      | some url => simp [retryLoop]
      | none => exact hstep _ (ih rest)

/-! ### Claim theorems -/

/-- C6: `validateMediaFile` on images: a `image/bmp` file is rejected in
the POST context at every size; a 2MB JPEG is rejected in the POST
context, whose image ceiling is 1MB; and any JPEG whose size is within a
context's image ceiling is accepted there (so a 2MB JPEG is accepted in
any context with a ceiling of at least 2MB — no such context exists, all
three ceilings being 1MB). -/
theorem validate_image_rules :
    (∀ n : Nat, (validateMediaFile ⟨n, "image/bmp"⟩ .image .POST).valid = false) ∧
    (validateMediaFile ⟨2 * 1024 * 1024, "image/jpeg"⟩ .image .POST).valid = false ∧
    (MEDIA_CONSTRAINTS .POST).MAX_IMAGE_SIZE = 1024 * 1024 ∧
    (∀ (sz : Nat) (ctx : MediaContext),
      sz ≤ (MEDIA_CONSTRAINTS ctx).MAX_IMAGE_SIZE →
      (validateMediaFile ⟨sz, "image/jpeg"⟩ .image ctx).valid = true) := by
  refine ⟨?_, by decide, by decide, ?_⟩
  · intro n
    by_cases h : 1024 * 1024 < n <;>
      simp [validateMediaFile, MEDIA_CONSTRAINTS, ALLOWED_IMAGE_TYPES, h]
  · intro sz ctx h
    cases ctx <;>
      simp_all [validateMediaFile, MEDIA_CONSTRAINTS, ALLOWED_IMAGE_TYPES,
        Nat.not_lt.mpr]

/-- Witness for C6 at a concrete in-ceiling JPEG. -/
theorem validate_image_rules_witness :
    100 ≤ (MEDIA_CONSTRAINTS .POST).MAX_IMAGE_SIZE ∧
    (validateMediaFile ⟨100, "image/jpeg"⟩ .image .POST).valid = true :=
  ⟨by decide, validate_image_rules.2.2.2 100 .POST (by decide)⟩

/-- C7 counterexample: with `[f1 ok, f2 failing, f3 ok]` the result array
does have length 2, but the last value passed to `onProgress` is 67, not
100 — progress counts only `completedUploads`, which a failed file never
increments. -/
theorem uploadMany_progress_cex :
    (uploadMultipleFiles [some "u1", none, some "u3"]).1 = ["u1", "u3"] ∧
    (uploadMultipleFiles [some "u1", none, some "u3"]).2.getLast? ≠ some 100 := by
  decide

/-- C7 amended: for `uploadMany([f1,f2,f3])` where only f2's upload
fails, the result is exactly f1's and f3's URLs in order, and the
progress sequence is the non-decreasing `[33, 67]` — it never reaches
100, since only successful uploads advance `completedUploads`. -/
theorem uploadMany_midfail_progress (u1 u3 : String) :
    uploadMultipleFiles [some u1, none, some u3] = ([u1, u3], [33, 67]) ∧
    List.Chain' (· ≤ ·) (uploadMultipleFiles [some u1, none, some u3]).2 := by
  have h : uploadMultipleFiles [some u1, none, some u3] = ([u1, u3], [33, 67]) := by
    simp [uploadMultipleFiles, uploadLoop, jsRound]
  refine ⟨h, ?_⟩
  rw [h]
  simp [List.chain'_cons]

/-- C8: a failed upload never aborts the batch.  In the simple path
(`uploadMultipleFiles`) the returned URLs are exactly the successful
files' URLs in input order, failed files being omitted without retry; in
the resilient post path the per-file retry loop returns the first
success among at most three attempts (dropping the file after three
failures), makes at most three attempts with the fixed 1000 ms delay
recorded between consecutive attempts, and the batch loop collects
exactly the URLs of the files whose retry loop succeeded. -/
theorem batch_failure_isolation :
    (∀ files : List (Option String),
      (uploadMultipleFiles files).1 = files.filterMap id) ∧
    (∀ outcomes : List (Option String),
      (uploadFileWithRetry outcomes).1 = (outcomes.take 3).findSome? id ∧
      countAttempts (uploadFileWithRetry outcomes).2 ≤ 3 ∧
      List.Chain' (fun a b => a = FileEvent.attempt → b = FileEvent.delay 1000)
        (uploadFileWithRetry outcomes).2) ∧
    (∀ files : List (List (Option String)),
      createPostUploadLoop files =
        files.filterMap fun f => (uploadFileWithRetry f).1) := by
  refine ⟨fun files => uploadLoop_urls files.length files 0,
    fun outcomes => ⟨retryLoop_fst 3 outcomes, retryLoop_attempts 3 outcomes,
      retryLoop_delay_between 3 outcomes⟩, ?_⟩
  intro files
  induction files with
  | nil => rfl
  | cons f rest ih =>
    cases h : (uploadFileWithRetry f).1 with
    | none => simp [createPostUploadLoop, h, ih]
    | some url => simp [createPostUploadLoop, h, ih]

/-- C3: the catch-block "revert" of the Discussions like handler does
not restore the pre-toggle state.  Starting from `{likes = 4, isLiked =
false}`, a like whose remote insert throws ends at `{likes = 6, isLiked
= false}`: the optimistic flip adds one, and the revert — reading the
already-flipped flag — adds one more instead of subtracting. -/
theorem failed_like_revert_drifts :
    handleLikePostD (some "u1") "p1"
        [⟨"p1", "t0", "u2", "hello", 4, 0, false, none⟩] (some 0) =
      ([⟨"p1", "t0", "u2", "hello", 6, 0, false, none⟩],
       [Event.localUpdate,
        Event.remoteCall (.insertLike "likes" "u1" "p1"),
        Event.localUpdate]) ∧
    (⟨"p1", "t0", "u2", "hello", 6, 0, false, none⟩ : DPost) ≠
      ⟨"p1", "t0", "u2", "hello", 4, 0, false, none⟩ := by
  decide

theorem find?_profile_unique (profs : List Profile) (uid : String) (q : Profile)
    (hq : q ∈ profs) (hid : q.id = uid) (hnd : (profs.map Profile.id).Nodup) :
    profs.find? (fun p => p.id == uid) = some q := by
  induction profs with
  | nil => cases hq
  | cons a rest ih =>
    rcases List.mem_cons.mp hq with rfl | hq'
    · exact List.find?_cons_of_pos rest (by simp [hid])
    · have hnd' := List.nodup_cons.mp hnd
      have hne : a.id ≠ uid := by
        intro h
        exact hnd'.1 (by
          rw [h, ← hid]
          exact List.mem_map_of_mem Profile.id hq')
      rw [List.find?_cons_of_neg rest (by simp [hne])]
      exact ih hq' hnd'.2

/-- C1: every row produced by the client-side join carries either the
profile whose id equals the row's `user_id` (necessarily the unique such
profile when profile ids are distinct), or null exactly when no fetched
profile has that id; never a profile with a different id. -/
theorem join_profile_null_or_matching (data : List PostRow) (profs : List Profile)
    (r : DPost) (hr : r ∈ postsWithProfiles data profs) :
    (∀ q, r.profile = some q → q ∈ profs ∧ q.id = r.user_id) ∧
    (r.profile = none ↔ ∀ q ∈ profs, q.id ≠ r.user_id) ∧
    (∀ q, q ∈ profs → q.id = r.user_id → (profs.map Profile.id).Nodup →
      r.profile = some q) := by
  obtain ⟨post, hpost, rfl⟩ := List.mem_map.mp hr
  refine ⟨?_, ?_, ?_⟩
  · intro q hq
    refine ⟨List.mem_of_find?_eq_some hq, ?_⟩
    have := List.find?_some hq
    simpa using this
  · show profs.find? (fun p => p.id == post.user_id) = none ↔ _
    rw [List.find?_eq_none]
    simp
  · intro q hq hid hnd
    exact find?_profile_unique profs post.user_id q hq hid hnd

/-- Witness for C1 on a one-row, one-profile instance. -/
theorem join_profile_null_or_matching_witness :
    (⟨"post1", "t", "user1", "hi", 0, 0, false, some ⟨"user1", "alice", none⟩⟩ : DPost) ∈
      postsWithProfiles [⟨"post1", "t", "user1", "hi", 0, 0⟩] [⟨"user1", "alice", none⟩] ∧
    ((∀ q : Profile, (⟨"post1", "t", "user1", "hi", 0, 0, false,
        some ⟨"user1", "alice", none⟩⟩ : DPost).profile = some q →
        q ∈ [(⟨"user1", "alice", none⟩ : Profile)] ∧
        q.id = (⟨"post1", "t", "user1", "hi", 0, 0, false,
          some ⟨"user1", "alice", none⟩⟩ : DPost).user_id) ∧
     ((⟨"post1", "t", "user1", "hi", 0, 0, false,
        some ⟨"user1", "alice", none⟩⟩ : DPost).profile = none ↔
       ∀ q ∈ [(⟨"user1", "alice", none⟩ : Profile)],
        q.id ≠ (⟨"post1", "t", "user1", "hi", 0, 0, false,
          some ⟨"user1", "alice", none⟩⟩ : DPost).user_id) ∧
     (∀ q : Profile, q ∈ [(⟨"user1", "alice", none⟩ : Profile)] →
        q.id = (⟨"post1", "t", "user1", "hi", 0, 0, false,
          some ⟨"user1", "alice", none⟩⟩ : DPost).user_id →
        ([(⟨"user1", "alice", none⟩ : Profile)].map Profile.id).Nodup →
        (⟨"post1", "t", "user1", "hi", 0, 0, false,
          some ⟨"user1", "alice", none⟩⟩ : DPost).profile = some q)) :=
  ⟨by decide,
   join_profile_null_or_matching [⟨"post1", "t", "user1", "hi", 0, 0⟩]
     [⟨"user1", "alice", none⟩] _ (by decide)⟩

/-- C5 counterexample: for the non-empty primary result `[p1]` with a
failing profile fetch, `fetchPosts` does not end up with the primary row
(there is no state update at all): the profile error is re-thrown and
caught by the outer handler. -/
theorem profile_fetch_failure_cex :
    fetchPostsD (.ok [⟨"p1", "t", "u1", "hi", 0, 0⟩]) .err = none ∧
    fetchPostsD (.ok [⟨"p1", "t", "u1", "hi", 0, 0⟩]) .err ≠
      some (postsWithProfiles [⟨"p1", "t", "u1", "hi", 0, 0⟩] []) := by
  decide

/-- C5 amended: when the primary fetch returns a non-empty row list and
the profile fetch fails, the whole fetch aborts — the posts state is
never set (the primary rows are discarded), rather than being kept with
null profiles. -/
theorem profile_fetch_failure_aborts (data : List PostRow) (h : data ≠ []) :
    fetchPostsD (.ok data) .err = none := by
  have hne : ¬(data.isEmpty = true) := by simpa [List.isEmpty_iff] using h
  show (if data.isEmpty then some [] else none : Option (List DPost)) = none
  rw [if_neg hne]

/-- Witness for C5 (amended) at a one-row primary result. -/
theorem profile_fetch_failure_aborts_witness :
    ([⟨"p1", "t", "u1", "hi", 0, 0⟩] : List PostRow) ≠ [] ∧
    fetchPostsD (.ok [⟨"p1", "t", "u1", "hi", 0, 0⟩]) .err = none :=
  ⟨by decide, profile_fetch_failure_aborts _ (by decide)⟩

theorem find?_map_cond {α : Type} (pred : α → Bool) (f : α → α)
    (hpres : ∀ a, pred (f a) = pred a) (l : List α) :
    (l.map fun a => if pred a then f a else a).find? pred =
      (l.find? pred).map f := by
  induction l with
  | nil => rfl
  | cons a rest ih =>
    cases h : pred a with
    | true =>
      rw [List.map_cons, if_pos h, List.find?_cons_of_pos _ (by rw [hpres, h]),
        List.find?_cons_of_pos _ h]
      rfl
    | false =>
      rw [List.map_cons, if_neg (by simp [h]),
        List.find?_cons_of_neg _ (by simp [h]), List.find?_cons_of_neg _ (by simp [h])]
      exact ih

theorem getPost_flipPost (postId : String) (posts : List DPost) :
    getPost postId (flipPost postId posts) = (getPost postId posts).map flipFn := by
  unfold getPost flipPost
  exact find?_map_cond (fun p : DPost => p.id == postId) flipFn (fun _ => rfl) posts

theorem flipFn_flipFn (p : DPost) : flipFn (flipFn p) = p := by
  cases p with
  | mk id created_at user_id content likes comments isLiked profile =>
    cases isLiked <;> simp [flipFn]

theorem flipPost_flipPost (postId : String) (posts : List DPost) :
    flipPost postId (flipPost postId posts) = posts := by
  have hcomp : ∀ x : DPost,
      (if (if x.id == postId then flipFn x else x).id == postId
        then flipFn (if x.id == postId then flipFn x else x)
        else (if x.id == postId then flipFn x else x)) = x := by
    intro x
    by_cases h : (x.id == postId) = true
    · rw [if_pos h, if_pos (show ((flipFn x).id == postId) = true from h)]
      exact flipFn_flipFn x
    · rw [if_neg h, if_neg h]
  induction posts with
  | nil => rfl
  | cons a rest ih =>
    have hstep : flipPost postId (flipPost postId (a :: rest)) =
        (if (if a.id == postId then flipFn a else a).id == postId
          then flipFn (if a.id == postId then flipFn a else a)
          else (if a.id == postId then flipFn a else a)) ::
        flipPost postId (flipPost postId rest) := rfl
    rw [hstep, hcomp a, ih]

/-- C2: on the Discussions screen, a post starting at
`{isLiked = false, likes = c}` reaches `{isLiked = true, likes = c + 1}`
after one toggle whose remote calls succeed, and a second successful
toggle restores the whole posts list — two successful toggles are the
identity on the displayed state. -/
theorem toggle_twice_roundtrip (userId postId : String) (posts : List DPost)
    (p : DPost) (hp : getPost postId posts = some p) (hl : p.isLiked = false) :
    getPost postId (handleLikePostD (some userId) postId posts none).1 =
      some { p with isLiked := true, likes := p.likes + 1 } ∧
    (handleLikePostD (some userId) postId
        (handleLikePostD (some userId) postId posts none).1 none).1 = posts := by
  have hp' : posts.find? (fun q : DPost => q.id == postId) = some p := hp
  have h1 : (handleLikePostD (some userId) postId posts none).1 =
      flipPost postId posts := by
    simp only [handleLikePostD, hp']
  have h2 : getPost postId (flipPost postId posts) = some (flipFn p) := by
    rw [getPost_flipPost, hp]; rfl
  have h2' : (flipPost postId posts).find? (fun q : DPost => q.id == postId) =
      some (flipFn p) := h2
  refine ⟨?_, ?_⟩
  · rw [h1, h2]
    simp [flipFn, hl]
  · rw [h1]
    have h3 : (handleLikePostD (some userId) postId (flipPost postId posts) none).1 =
        flipPost postId (flipPost postId posts) := by
      simp only [handleLikePostD, h2']
    rw [h3, flipPost_flipPost]

/-- Witness for C2 on a one-post list starting unliked at 4 likes. -/
theorem toggle_twice_roundtrip_witness :
    getPost "p1" [(⟨"p1", "t", "u2", "hi", 4, 0, false, none⟩ : DPost)] =
      some ⟨"p1", "t", "u2", "hi", 4, 0, false, none⟩ ∧
    (getPost "p1" (handleLikePostD (some "u1") "p1"
        [(⟨"p1", "t", "u2", "hi", 4, 0, false, none⟩ : DPost)] none).1 =
      some { (⟨"p1", "t", "u2", "hi", 4, 0, false, none⟩ : DPost) with
        isLiked := true,
        likes := (⟨"p1", "t", "u2", "hi", 4, 0, false, none⟩ : DPost).likes + 1 } ∧
     (handleLikePostD (some "u1") "p1"
        (handleLikePostD (some "u1") "p1"
          [(⟨"p1", "t", "u2", "hi", 4, 0, false, none⟩ : DPost)] none).1 none).1 =
       [(⟨"p1", "t", "u2", "hi", 4, 0, false, none⟩ : DPost)]) :=
  ⟨by decide,
   toggle_twice_roundtrip "u1" "p1" _ _ (by decide) rfl⟩

/-- C4 counterexample: in the PostsScreen handler a like issues the
remote insert FIRST and only then updates local state — the trace starts
with a remote call that no local update precedes, refuting the claim
that every toggle flips local state before any network call. -/
theorem posts_like_remote_before_flip_cex :
    (handleLikePostP (some "u1") "p1" false
        [(⟨"p1", "t", "c", "u2", 0, 0, false, none⟩ : PPost)] false).2 =
      [Event.remoteCall (.insertLike "post_likes" "u1" "p1"), Event.localUpdate] ∧
    ¬ flipPrecedesRemotes
        (handleLikePostP (some "u1") "p1" false
          [(⟨"p1", "t", "c", "u2", 0, 0, false, none⟩ : PPost)] false).2 := by
  refine ⟨rfl, ?_⟩
  intro h
  obtain ⟨i, hi, -⟩ := h 0 (RemoteOp.insertLike "post_likes" "u1" "p1") rfl
  exact absurd hi (Nat.not_lt_zero i)

/-- C4 amended: the ordering differs per screen.  The Discussions
handler always flips local state before issuing any remote call; the
PostsScreen handler awaits the remote delete/insert first and applies
the local update only afterwards (and not at all when the call throws). -/
theorem flip_ordering_by_screen :
    (∀ (userId postId : String) (posts : List DPost) (failAt : Option (Fin 2)),
      flipPrecedesRemotes (handleLikePostD (some userId) postId posts failAt).2) ∧
    (∀ (userId postId : String) (liked : Bool) (posts : List PPost),
      (handleLikePostP (some userId) postId liked posts false).2 =
        [Event.remoteCall
          (if liked then RemoteOp.deleteLike "post_likes" userId postId
           else RemoteOp.insertLike "post_likes" userId postId),
         Event.localUpdate] ∧
      (handleLikePostP (some userId) postId liked posts true).2 =
        [Event.remoteCall
          (if liked then RemoteOp.deleteLike "post_likes" userId postId
           else RemoteOp.insertLike "post_likes" userId postId)]) := by
  constructor
  · intro userId postId posts failAt j op hj
    cases hfind : posts.find? (fun q : DPost => q.id == postId) with
    | none =>
      have ht : (handleLikePostD (some userId) postId posts failAt).2 = [] := by
        simp only [handleLikePostD, hfind]
      rw [ht] at hj
      simp at hj
    | some post =>
      have hhead : (handleLikePostD (some userId) postId posts failAt).2.get? 0 =
          some Event.localUpdate := by
        cases failAt with
        | none =>
          simp only [handleLikePostD, hfind]
          rfl
        | some i =>
          simp only [handleLikePostD, hfind]
          rfl
      cases j with
      | zero =>
        rw [hj] at hhead
        simp at hhead
      | succ j => exact ⟨0, Nat.succ_pos _, hhead⟩
  · intro userId postId liked posts
    cases liked <;> exact ⟨rfl, rfl⟩

/-- Witness for C4 (amended) at concrete one-post inputs. -/
theorem flip_ordering_by_screen_witness :
    flipPrecedesRemotes (handleLikePostD (some "u1") "p1"
      [(⟨"p1", "t", "u2", "hi", 0, 0, false, none⟩ : DPost)] none).2 ∧
    (handleLikePostP (some "u1") "p1" false
        [(⟨"p1", "t", "c", "u2", 0, 0, false, none⟩ : PPost)] false).2 =
      [Event.remoteCall (.insertLike "post_likes" "u1" "p1"), Event.localUpdate] ∧
    (handleLikePostP (some "u1") "p1" false
        [(⟨"p1", "t", "c", "u2", 0, 0, false, none⟩ : PPost)] true).2 =
      [Event.remoteCall (.insertLike "post_likes" "u1" "p1")] :=
  ⟨flip_ordering_by_screen.1 "u1" "p1" _ none,
   (flip_ordering_by_screen.2 "u1" "p1" false _).1,
   (flip_ordering_by_screen.2 "u1" "p1" false _).2⟩

/-- C9: check-then-insert discipline.  On both screens the handler
issues an insert into the likes table only when the local state records
the post as not liked, and a delete only when it records it as liked —
on the Discussions screen against the pre-flip snapshot of the found
post, on the PostsScreen against the `liked_by_current_user` flag of the
rendered item that the call site passes in. -/
theorem like_check_then_insert :
    (∀ (userId postId : String) (posts : List DPost) (failAt : Option (Fin 2))
      (p : DPost), getPost postId posts = some p →
      (Event.remoteCall (RemoteOp.insertLike "likes" userId postId) ∈
          (handleLikePostD (some userId) postId posts failAt).2 →
        p.isLiked = false) ∧
      (Event.remoteCall (RemoteOp.deleteLike "likes" userId postId) ∈
          (handleLikePostD (some userId) postId posts failAt).2 →
        p.isLiked = true)) ∧
    (∀ (userId postId : String) (posts : List PPost) (remoteFails : Bool)
      (p : PPost), getPostP postId posts = some p →
      (Event.remoteCall (RemoteOp.insertLike "post_likes" userId postId) ∈
          (handleLikePostP (some userId) postId p.liked_by_current_user posts
            remoteFails).2 →
        p.liked_by_current_user = false) ∧
      (Event.remoteCall (RemoteOp.deleteLike "post_likes" userId postId) ∈
          (handleLikePostP (some userId) postId p.liked_by_current_user posts
            remoteFails).2 →
        p.liked_by_current_user = true)) := by
  constructor
  · intro userId postId posts failAt p hp
    have hfind : posts.find? (fun q : DPost => q.id == postId) = some p := hp
    constructor
    · intro hmem
      cases hl : p.isLiked
      · rfl
      · exfalso
        cases failAt with
        | none => simp [handleLikePostD, hfind, hl] at hmem
        | some i =>
          obtain ⟨iv, hiv⟩ := i
          interval_cases iv <;> simp [handleLikePostD, hfind, hl] at hmem
    · intro hmem
      cases hl : p.isLiked
      · exfalso
        cases failAt with
        | none => simp [handleLikePostD, hfind, hl] at hmem
        | some i =>
          obtain ⟨iv, hiv⟩ := i
          interval_cases iv <;> simp [handleLikePostD, hfind, hl] at hmem
      · rfl
  · intro userId postId posts remoteFails p hp
    constructor
    · intro hmem
      cases hl : p.liked_by_current_user
      · rfl
      · exfalso
        rw [hl] at hmem
        cases remoteFails <;> simp [handleLikePostP] at hmem
    · intro hmem
      cases hl : p.liked_by_current_user
      · exfalso
        rw [hl] at hmem
        cases remoteFails <;> simp [handleLikePostP] at hmem
      · rfl

/-- Witness for C9: a like on an unliked post does issue the insert, and
the pre-toggle local state indeed records the post as not liked. -/
theorem like_check_then_insert_witness :
    Event.remoteCall (RemoteOp.insertLike "likes" "u1" "p1") ∈
      (handleLikePostD (some "u1") "p1"
        [(⟨"p1", "t", "u2", "hi", 4, 0, false, none⟩ : DPost)] none).2 ∧
    (⟨"p1", "t", "u2", "hi", 4, 0, false, none⟩ : DPost).isLiked = false :=
  ⟨by decide,
   (like_check_then_insert.1 "u1" "p1"
     [⟨"p1", "t", "u2", "hi", 4, 0, false, none⟩] none
     ⟨"p1", "t", "u2", "hi", 4, 0, false, none⟩ (by decide)).1 (by decide)⟩

theorem getPostP_unlike (postId : String) (posts : List PPost) :
    getPostP postId
        (posts.map fun post => if post.id == postId then unlikeFnP post else post) =
      (getPostP postId posts).map unlikeFnP := by
  unfold getPostP
  exact find?_map_cond (fun p : PPost => p.id == postId) unlikeFnP (fun _ => rfl) posts

/-- C10: in the PostsScreen handler a successful unlike sets the toggled
post's count to `max 0 (likes_count - 1)`, so the displayed count never
goes below zero, including when the count was already 0. -/
theorem unlike_count_clamped (userId postId : String) (posts : List PPost)
    (p : PPost) (hp : getPostP postId posts = some p) :
    getPostP postId (handleLikePostP (some userId) postId true posts false).1 =
      some { p with likes_count := max 0 (p.likes_count - 1),
                    liked_by_current_user := false } ∧
    0 ≤ max 0 (p.likes_count - 1) := by
  have h1 : (handleLikePostP (some userId) postId true posts false).1 =
      posts.map fun post => if post.id == postId then unlikeFnP post else post := rfl
  refine ⟨?_, le_max_left 0 _⟩
  rw [h1, getPostP_unlike, hp]
  rfl

/-- Witness for C10 at a post whose count is already 0. -/
theorem unlike_count_clamped_witness :
    getPostP "p1" [(⟨"p1", "t", "c", "u2", 0, 0, true, none⟩ : PPost)] =
      some ⟨"p1", "t", "c", "u2", 0, 0, true, none⟩ ∧
    (getPostP "p1" (handleLikePostP (some "u1") "p1" true
        [(⟨"p1", "t", "c", "u2", 0, 0, true, none⟩ : PPost)] false).1 =
      some { (⟨"p1", "t", "c", "u2", 0, 0, true, none⟩ : PPost) with
        likes_count :=
          max 0 ((⟨"p1", "t", "c", "u2", 0, 0, true, none⟩ : PPost).likes_count - 1),
        liked_by_current_user := false } ∧
     0 ≤ max 0 ((⟨"p1", "t", "c", "u2", 0, 0, true, none⟩ : PPost).likes_count - 1)) :=
  ⟨by decide, unlike_count_clamped "u1" "p1" _ _ (by decide)⟩

end Services
